import Mathlib

/-!
Shallow embedding of the CPU-multiplier register-write program:
`src/Project/zx.c` (engine and CLI) and `src/Project/overclock.c`
(platform-conditional engine).  Machine integers are modelled as `Int`
values whose bit patterns are taken modulo the relevant power of two;
observable behaviour (port writes, `iopl`, diagnostics, `exit`) is an
explicit event trace plus an outcome.
-/

/-- Constant `MSR_OC_BASE` (0x199) from both C files. -/
def MSR_OC_BASE : Nat := 0x199

/-- Constant `PORT_PROTECT` (0xCF8), the index/protect port. -/
def PORT_PROTECT : Nat := 0xCF8

/-- Constant `PORT_DATA` (0xCFC), the data port. -/
def PORT_DATA : Nat := 0xCFC

/-- Bit pattern of a C `int` (32-bit two's complement) as a natural number:
the value modulo 2^32 (= 4294967296). -/
def toBits32 (i : Int) : Nat := (i % 4294967296).toNat

/-- Bit pattern of a C `unsigned long` on the 64-bit Linux target: the value
modulo 2^64 (= 18446744073709551616). -/
def toBits64 (i : Int) : Nat := (i % 18446744073709551616).toNat

/-- Observable events issued by the program: the `iopl(3)` privilege call,
`perror` diagnostics, `printf` lines, `outl` port writes (port, value), and
the Windows `MessageBoxA` dialog (text, caption). -/
inductive Event where
  | ioplCall : Event
  | perrorMsg : String → Event
  | printMsg : String → Event
  | portWrite : Nat → Nat → Event
  | messageBox : String → String → Event
  deriving DecidableEq, Repr

/-- How a call ends: a normal return, or process termination via `exit`. -/
inductive Outcome where
  | ret : Outcome
  | exited : Nat → Outcome
  deriving DecidableEq, Repr

/-- The local `msr` of `set_cpu_multiplier`: `MSR_OC_BASE + core`, stored in
an `unsigned long`. -/
def RegisterAddress (core : Int) : Nat := toBits64 (MSR_OC_BASE + core)

/-- The local `value` of `set_cpu_multiplier`:
`(multiplier & 0xFF) | 0x10000`, stored in an `unsigned long`. -/
def EncodedValue (multiplier : Int) : Nat :=
  (toBits32 multiplier &&& 0xFF) ||| 0x10000

/-- Decide whether an event is an `outl` port write. -/
def Event.isPortWrite : Event → Bool
  | Event.portWrite _ _ => true
  | _ => false

/-- Decide whether an event is the `iopl(3)` privilege-acquisition call. -/
def Event.isIoplCall : Event → Bool
  | Event.ioplCall => true
  | _ => false

/-- The `outl` port writes contained in a trace, in order. -/
def portWrites (t : List Event) : List Event :=
  t.filter Event.isPortWrite

/-- The `iopl(3)` privilege-acquisition attempts contained in a trace. -/
def ioplCalls (t : List Event) : List Event :=
  t.filter Event.isIoplCall

/-- Observable shape of the privilege-denied failure path in the C code: the
`perror("iopl")` diagnostic appears in the trace and the call ends in
`exit(1)` rather than a normal return. -/
def failsPrivilegeDenied (r : List Event × Outcome) : Prop :=
  Event.perrorMsg "iopl" ∈ r.1 ∧ r.2 = Outcome.exited 1

namespace zx

/-- `set_cpu_multiplier` from `src/Project/zx.c`: computes the locals `msr`
and `value`, calls `iopl(3)` (whose success is the environment flag
`ioplOk`); on failure it prints `perror("iopl")` and exits with status 1, on
success it issues the two `outl` writes and returns. -/
def set_cpu_multiplier (ioplOk : Bool) (core multiplier : Int) :
    List Event × Outcome :=
  let msr := RegisterAddress core
  let value := EncodedValue multiplier
  if ioplOk then
    ([Event.ioplCall, Event.portWrite PORT_PROTECT msr,
      Event.portWrite PORT_DATA value], Outcome.ret)
  else
    ([Event.ioplCall, Event.perrorMsg "iopl"], Outcome.exited 1)

end zx

namespace overclock

/-- The `_WIN32` branch of `set_cpu_multiplier` in `src/Project/overclock.c`:
shows a message box and exits with `EXIT_FAILURE` (1); no port access and no
privilege acquisition. -/
def set_cpu_multiplier_win (core multiplier : Int) : List Event × Outcome :=
  ([Event.messageBox "Direct I/O not supported in user mode." "Error"],
   Outcome.exited 1)

/-- The non-`_WIN32` (Linux) branch of `set_cpu_multiplier` in
`src/Project/overclock.c`: computes `msr` and `value`, calls `iopl(3)`; on
failure prints `perror("iopl")` and exits with `EXIT_FAILURE` (1), on success
issues the two `outl` writes and returns. -/
def set_cpu_multiplier (ioplOk : Bool) (core multiplier : Int) :
    List Event × Outcome :=
  let msr := toBits64 (MSR_OC_BASE + core)
  let value := (toBits32 multiplier &&& 0xFF) ||| 0x10000
  if ioplOk then
    ([Event.ioplCall, Event.portWrite PORT_PROTECT msr,
      Event.portWrite PORT_DATA value], Outcome.ret)
  else
    ([Event.ioplCall, Event.perrorMsg "iopl"], Outcome.exited 1)

end overclock

/-- C whitespace, as classified by `isspace` in the default locale. -/
def isSpaceChar (c : Char) : Bool :=
  c = ' ' || c = '\t' || c = '\n' || c = '\x0b' || c = '\x0c' || c = '\r'

/-- Accumulate the leading decimal digits of a character list onto an
accumulator, as `atoi` does; stops at the first non-digit. -/
def readDigits : List Char → Int → Int
  | c :: cs, acc =>
      if c.isDigit then readDigits cs (acc * 10 + Int.ofNat (c.toNat - Char.toNat '0'))
      else acc
  | [], acc => acc

/-- Behaviour of `atoi` once leading whitespace is gone: an optional sign
followed by leading decimal digits; no digits yields 0. -/
def atoiAfterSpace : List Char → Int
  | [] => 0
  | c :: cs =>
      if c = '-' then - readDigits cs 0
      else if c = '+' then readDigits cs 0
      else readDigits (c :: cs) 0

/-- The C library `atoi`: skip whitespace, read an optional sign, then the
leading decimal digits. -/
def atoi (s : String) : Int := atoiAfterSpace (s.data.dropWhile isSpaceChar)

/-- Decide whether a character list has no leading decimal digit. -/
def noLeadingDigit : List Char → Bool
  | [] => true
  | c :: _ => !c.isDigit

/-- A string is non-numeric for `atoi` when, after leading whitespace and an
optional single sign, it does not start with a decimal digit. -/
def nonNumericAfterSpace : List Char → Bool
  | [] => true
  | c :: cs =>
      if c = '-' then noLeadingDigit cs
      else if c = '+' then noLeadingDigit cs
      else !c.isDigit

/-- A string that `atoi` finds no digits in: after leading whitespace and an
optional sign there is no decimal digit. -/
def nonNumeric (s : String) : Bool :=
  nonNumericAfterSpace (s.data.dropWhile isSpaceChar)

namespace zx

/-- `main` from `src/Project/zx.c`: with argument vector `argv` (program name
included), checks `argc == 3`, parses both arguments with `atoi`,
range-checks them, and in range prints the confirmation line and calls
`set_cpu_multiplier`.  Returns the event trace and the process exit
status. -/
def main (ioplOk : Bool) (argv : List String) : List Event × Nat :=
  if argv.length ≠ 3 then
    ([Event.printMsg ("Usage: " ++ argv.getD 0 "" ++ " <core> <multiplier>")],
     1)
  else
    let core := atoi (argv.getD 1 "")
    let multi := atoi (argv.getD 2 "")
    if core < 0 || core > 15 || multi < 8 || multi > 255 then
      ([Event.printMsg "Invalid parameters!"], 1)
    else
      let r := set_cpu_multiplier ioplOk core multi
      (Event.printMsg ("Setting core " ++ toString core ++ " to " ++
          toString multi ++ "x multiplier") :: r.1,
       match r.2 with
       | Outcome.ret => 0
       | Outcome.exited c => c)

/-- Two successive calls to the zx engine with the same arguments; their
traces are issued one after the other. -/
def callTwice (ioplOk : Bool) (core multiplier : Int) : List Event :=
  (set_cpu_multiplier ioplOk core multiplier).1 ++
    (set_cpu_multiplier ioplOk core multiplier).1

end zx

/-- Claim C1: for every core in [0,15] and multiplier in [8,255], a
successful call to `set_cpu_multiplier` computes
`RegisterAddress = 0x199 + core` and
`EncodedValue = (multiplier &&& 0xFF) ||| 0x10000` as pure deterministic
functions of the two inputs, writing the address to port 0xCF8 and the value
to port 0xCFC; core=15, multiplier=255 yields address 0x1A8 and value
0x100FF, and core=0, multiplier=8 yields address 0x199 and value 0x10008. -/
theorem c1_engine_computes_address_and_value (core multiplier : Int)
    (hc0 : 0 ≤ core) (hc1 : core ≤ 15)
    (hm0 : 8 ≤ multiplier) (hm1 : multiplier ≤ 255) :
    RegisterAddress core = (0x199 + core).toNat ∧
    EncodedValue multiplier = (multiplier.toNat &&& 0xFF) ||| 0x10000 ∧
    zx.set_cpu_multiplier true core multiplier =
      ([Event.ioplCall,
        Event.portWrite 0xCF8 (RegisterAddress core),
        Event.portWrite 0xCFC (EncodedValue multiplier)], Outcome.ret) ∧
    RegisterAddress 15 = 0x1A8 ∧ EncodedValue 255 = 0x100FF ∧
    RegisterAddress 0 = 0x199 ∧ EncodedValue 8 = 0x10008 := by
  refine ⟨?_, ?_, rfl, by decide, by decide, by decide, by decide⟩
  · unfold RegisterAddress toBits64 MSR_OC_BASE
    omega
  · unfold EncodedValue toBits32
    congr 2
    omega

/-- Closed witness for C1 at core 0, multiplier 8. -/
theorem c1_engine_computes_address_and_value_witness :
    RegisterAddress 0 = (0x199 + 0 : Int).toNat ∧
    EncodedValue 8 = ((8 : Int).toNat &&& 0xFF) ||| 0x10000 ∧
    zx.set_cpu_multiplier true 0 8 =
      ([Event.ioplCall,
        Event.portWrite 0xCF8 (RegisterAddress 0),
        Event.portWrite 0xCFC (EncodedValue 8)], Outcome.ret) ∧
    RegisterAddress 15 = 0x1A8 ∧ EncodedValue 255 = 0x100FF ∧
    RegisterAddress 0 = 0x199 ∧ EncodedValue 8 = 0x10008 :=
  c1_engine_computes_address_and_value 0 8 (by decide) (by decide)
    (by decide) (by decide)

/-- Claim C2: in every successful call (of either engine's Linux path) the
write of the register address to index port 0xCF8 occurs strictly before the
write of the encoded value to data port 0xCFC: the trace is exactly the
`iopl` call followed by the two port writes in that order, so the writes are
never reordered. -/
theorem c2_index_write_before_data_write (ioplOk : Bool)
    (core multiplier : Int)
    (hok : (zx.set_cpu_multiplier ioplOk core multiplier).2 = Outcome.ret) :
    (zx.set_cpu_multiplier ioplOk core multiplier).1 =
      [Event.ioplCall,
       Event.portWrite PORT_PROTECT (RegisterAddress core),
       Event.portWrite PORT_DATA (EncodedValue multiplier)] ∧
    (overclock.set_cpu_multiplier ioplOk core multiplier).1 =
      [Event.ioplCall,
       Event.portWrite PORT_PROTECT (RegisterAddress core),
       Event.portWrite PORT_DATA (EncodedValue multiplier)] := by
  cases ioplOk with
  | false => exact Outcome.noConfusion hok
  | true => exact ⟨rfl, rfl⟩

/-- Closed witness for C2 at a successful call with core 0, multiplier 8. -/
theorem c2_index_write_before_data_write_witness :
    (zx.set_cpu_multiplier true 0 8).1 =
      [Event.ioplCall,
       Event.portWrite PORT_PROTECT (RegisterAddress 0),
       Event.portWrite PORT_DATA (EncodedValue 8)] ∧
    (overclock.set_cpu_multiplier true 0 8).1 =
      [Event.ioplCall,
       Event.portWrite PORT_PROTECT (RegisterAddress 0),
       Event.portWrite PORT_DATA (EncodedValue 8)] :=
  c2_index_write_before_data_write true 0 8 (by decide)

/-- Claim C3: if privilege acquisition (`iopl`) fails, `set_cpu_multiplier`
issues zero port writes: the call fails on the privilege-denied path (the
`perror("iopl")` diagnostic and exit status 1) and never reaches either
`outl`, in both engines, so no partial hardware write occurs on any failure
path. -/
theorem c3_no_port_writes_on_iopl_failure (core multiplier : Int) :
    failsPrivilegeDenied (zx.set_cpu_multiplier false core multiplier) ∧
    portWrites (zx.set_cpu_multiplier false core multiplier).1 = [] ∧
    failsPrivilegeDenied (overclock.set_cpu_multiplier false core multiplier) ∧
    portWrites (overclock.set_cpu_multiplier false core multiplier).1 = [] :=
  ⟨⟨by simp [zx.set_cpu_multiplier], rfl⟩, rfl,
   ⟨by simp [overclock.set_cpu_multiplier], rfl⟩, rfl⟩

/-- Counterexample to claim C4 as stated: with privilege denied at core 0,
multiplier 8, the engine does terminate the process (it ends in `exit` with
status 1, not a normal return carrying an error value), and the
unsupported-platform variant likewise exits the process. -/
theorem c4_counterexample_engine_exits :
    (zx.set_cpu_multiplier false 0 8).2 = Outcome.exited 1 ∧
    (zx.set_cpu_multiplier false 0 8).2 ≠ Outcome.ret ∧
    (overclock.set_cpu_multiplier_win 0 8).2 = Outcome.exited 1 ∧
    (overclock.set_cpu_multiplier_win 0 8).2 ≠ Outcome.ret := by
  refine ⟨rfl, ?_, rfl, ?_⟩ <;> decide

/-- Claim C4 as amended: for every error kind the program terminates the
process with a nonzero exit status instead of returning a typed error value
to the engine's caller — privilege denial makes both engine variants exit
with status 1 after the `perror` diagnostic, the unsupported-platform
variant exits with status 1 after its dialog, and invalid arguments are
handled at the CLI boundary, which prints a diagnostic and exits 1 without
invoking the engine. -/
theorem c4_amended_errors_terminate_process (ioplOk : Bool)
    (core multiplier : Int) :
    (zx.set_cpu_multiplier false core multiplier).2 = Outcome.exited 1 ∧
    (overclock.set_cpu_multiplier false core multiplier).2 =
      Outcome.exited 1 ∧
    (overclock.set_cpu_multiplier_win core multiplier).2 =
      Outcome.exited 1 ∧
    zx.main ioplOk ["./zx", "16", "100"] =
      ([Event.printMsg "Invalid parameters!"], 1) := by
  refine ⟨rfl, rfl, rfl, ?_⟩
  cases ioplOk <;> rfl

/-- Claim C5: for every argument pair whose parsed core lies outside [0,15]
or whose parsed multiplier lies outside [8,255] — for example core=16 or
multiplier=7 — the CLI entry point prints the diagnostic and exits with
status 1, its trace containing no engine event, so `set_cpu_multiplier` is
never invoked; for in-range inputs it prints the human-readable confirmation
line before the engine's events. -/
theorem c5_cli_range_guard (ioplOk : Bool) (prog a1 a2 : String) :
    (atoi a1 < 0 ∨ atoi a1 > 15 ∨ atoi a2 < 8 ∨ atoi a2 > 255 →
      zx.main ioplOk [prog, a1, a2] =
        ([Event.printMsg "Invalid parameters!"], 1)) ∧
    (0 ≤ atoi a1 → atoi a1 ≤ 15 → 8 ≤ atoi a2 → atoi a2 ≤ 255 →
      (zx.main ioplOk [prog, a1, a2]).1 =
        Event.printMsg ("Setting core " ++ toString (atoi a1) ++ " to " ++
            toString (atoi a2) ++ "x multiplier") ::
          (zx.set_cpu_multiplier ioplOk (atoi a1) (atoi a2)).1) ∧
    zx.main ioplOk [prog, "16", "100"] =
      ([Event.printMsg "Invalid parameters!"], 1) ∧
    zx.main ioplOk [prog, "0", "7"] =
      ([Event.printMsg "Invalid parameters!"], 1) := by
  have g1 : [prog, a1, a2].getD 1 "" = a1 := rfl
  have g2 : [prog, a1, a2].getD 2 "" = a2 := rfl
  refine ⟨?_, ?_, ?_, ?_⟩
  · intro h
    simp only [zx.main, List.length_cons, List.length_nil, g1, g2]
    rw [if_neg (by omega), if_pos]
    simp only [Bool.or_eq_true, decide_eq_true_eq]
    omega
  · intro h1 h2 h3 h4
    simp only [zx.main, List.length_cons, List.length_nil, g1, g2]
    rw [if_neg (by omega), if_neg]
    simp only [Bool.or_eq_true, decide_eq_true_eq]
    omega
  · rfl
  · rfl

/-- Closed witness for C5: in-range arguments "0" and "8" produce the
confirmation line followed by the engine's trace. -/
theorem c5_cli_range_guard_witness :
    (zx.main true ["./zx", "0", "8"]).1 =
      Event.printMsg ("Setting core " ++ toString (atoi "0") ++ " to " ++
          toString (atoi "8") ++ "x multiplier") ::
        (zx.set_cpu_multiplier true (atoi "0") (atoi "8")).1 :=
  (c5_cli_range_guard true "./zx" "0" "8").2.1 (by decide) (by decide)
    (by decide) (by decide)

/-- Claim C6: two successive successful calls to the engine with the same
arguments issue exactly the same pair of port writes both times — running
the call twice yields the one-call trace twice, and the port writes of the
two halves are the identical address/value pair, since the function carries
no state between calls and its output depends only on its arguments. -/
theorem c6_successive_calls_same_writes (ioplOk : Bool)
    (core multiplier : Int) :
    zx.callTwice ioplOk core multiplier =
      (zx.set_cpu_multiplier ioplOk core multiplier).1 ++
        (zx.set_cpu_multiplier ioplOk core multiplier).1 ∧
    portWrites (zx.callTwice true core multiplier) =
      [Event.portWrite PORT_PROTECT (RegisterAddress core),
       Event.portWrite PORT_DATA (EncodedValue multiplier),
       Event.portWrite PORT_PROTECT (RegisterAddress core),
       Event.portWrite PORT_DATA (EncodedValue multiplier)] :=
  ⟨rfl, rfl⟩

/-- Claim C7: on the unsupported-platform (Windows) variant, every call
immediately shows the rejection dialog and exits with status 1; its trace
contains no port write and no `iopl` privilege-acquisition attempt for any
input. -/
theorem c7_windows_variant_no_hardware_access (core multiplier : Int) :
    overclock.set_cpu_multiplier_win core multiplier =
      ([Event.messageBox "Direct I/O not supported in user mode." "Error"],
       Outcome.exited 1) ∧
    portWrites (overclock.set_cpu_multiplier_win core multiplier).1 = [] ∧
    ioplCalls (overclock.set_cpu_multiplier_win core multiplier).1 = [] :=
  ⟨rfl, rfl, rfl⟩

/-- Helper: the byte kept by the engine's mask is the bit pattern modulo
256, so ORing in bit 16 is plain addition of 0x10000. -/
theorem EncodedValue_eq_mod_add (multiplier : Int) :
    EncodedValue multiplier = toBits32 multiplier % 256 + 65536 := by
  unfold EncodedValue
  have h1 : toBits32 multiplier &&& 0xFF = toBits32 multiplier % 256 := by
    have h := Nat.and_pow_two_sub_one_eq_mod (toBits32 multiplier) 8
    norm_num at h
    exact h
  have h2 : toBits32 multiplier % 256 < 2 ^ 16 := by
    have := Nat.mod_lt (toBits32 multiplier) (y := 256) (by norm_num)
    omega
  have h3 : 2 ^ 16 * 1 + toBits32 multiplier % 256 =
      2 ^ 16 * 1 ||| toBits32 multiplier % 256 :=
    Nat.mul_add_lt_is_or h2 1
  norm_num at h3
  rw [h1, Nat.lor_comm, ← h3, Nat.add_comm]

/-- Claim C8: for every integer multiplier, even outside [8,255], the
encoded value always has bit 16 set, its low 8 bits equal to multiplier mod
256, and bits 8 through 15 clear; the value written to the data port always
lies between 0x10000 and 0x100FF inclusive. -/
theorem c8_encoded_value_invariant (multiplier : Int) :
    Nat.testBit (EncodedValue multiplier) 16 = true ∧
    EncodedValue multiplier % 256 = (multiplier % 256).toNat ∧
    (∀ i, 8 ≤ i → i ≤ 15 → Nat.testBit (EncodedValue multiplier) i = false) ∧
    0x10000 ≤ EncodedValue multiplier ∧ EncodedValue multiplier ≤ 0x100FF := by
  have hv := EncodedValue_eq_mod_add multiplier
  have hlt : toBits32 multiplier % 256 < 256 :=
    Nat.mod_lt (toBits32 multiplier) (by norm_num)
  refine ⟨?_, ?_, ?_, ?_, ?_⟩
  · rw [hv, Nat.testBit_to_div_mod]
    simp only [decide_eq_true_eq]
    norm_num
    omega
  · rw [hv]
    unfold toBits32
    omega
  · intro i h8 h15
    interval_cases i <;>
      (rw [hv, Nat.testBit_to_div_mod]
       simp only [decide_eq_false_iff_not]
       norm_num
       omega)
  · rw [hv]
    omega
  · rw [hv]
    omega

/-- Closed witness for C8 at multiplier -1 (outside [8,255]): bit 16 is
set, the low byte is 255, bit 8 is clear, and the value is 0x100FF. -/
theorem c8_encoded_value_invariant_witness :
    Nat.testBit (EncodedValue (-1)) 16 = true ∧
    EncodedValue (-1) % 256 = ((-1 : Int) % 256).toNat ∧
    Nat.testBit (EncodedValue (-1)) 8 = false ∧
    0x10000 ≤ EncodedValue (-1) ∧ EncodedValue (-1) ≤ 0x100FF :=
  have h := c8_encoded_value_invariant (-1)
  ⟨h.1, h.2.1, h.2.2.1 8 (by decide) (by decide), h.2.2.2.1, h.2.2.2.2⟩

/-- Helper: `readDigits` returns its accumulator unchanged when the list has
no leading decimal digit. -/
theorem readDigits_of_noLeadingDigit (cs : List Char) (acc : Int)
    (h : noLeadingDigit cs = true) : readDigits cs acc = acc := by
  cases cs with
  | nil => rfl
  | cons c cs' =>
    have hd : c.isDigit = false := by
      revert h
      simp only [noLeadingDigit]
      cases c.isDigit <;> simp
    simp [readDigits, hd]

/-- Helper: once leading whitespace is gone, `atoi` yields 0 on any
character list with no digits after the optional sign. -/
theorem atoiAfterSpace_of_nonNumeric (cs : List Char)
    (h : nonNumericAfterSpace cs = true) : atoiAfterSpace cs = 0 := by
  cases cs with
  | nil => rfl
  | cons c cs' =>
    simp only [nonNumericAfterSpace] at h
    simp only [atoiAfterSpace]
    by_cases hm : c = '-'
    · rw [if_pos hm] at h
      rw [if_pos hm, readDigits_of_noLeadingDigit cs' 0 h]
      exact neg_zero
    · by_cases hp : c = '+'
      · rw [if_neg hm, if_pos hp] at h
        rw [if_neg hm, if_pos hp]
        exact readDigits_of_noLeadingDigit cs' 0 h
      · rw [if_neg hm, if_neg hp] at h
        have hd : c.isDigit = false := by
          revert h
          cases c.isDigit <;> simp
        rw [if_neg hm, if_neg hp]
        simp [readDigits, hd]

/-- Claim C9: the CLI parses its two arguments with `atoi`, so any
non-numeric argument string parses as 0: a non-numeric core argument such as
"abc" is accepted as core 0 and passes the range check (the CLI prints the
confirmation line for core 0 and invokes the engine) rather than being
rejected as an invalid base-10 integer, while a non-numeric multiplier
argument parses as 0 and is rejected only because 0 < 8. -/
theorem c9_atoi_nonnumeric_parses_zero (s : String)
    (h : nonNumeric s = true) :
    atoi s = 0 ∧
    atoi "abc" = 0 ∧
    zx.main true ["./zx", "abc", "100"] =
      (Event.printMsg "Setting core 0 to 100x multiplier" ::
        (zx.set_cpu_multiplier true 0 100).1, 0) ∧
    zx.main true ["./zx", "8", "abc"] =
      ([Event.printMsg "Invalid parameters!"], 1) :=
  ⟨atoiAfterSpace_of_nonNumeric _ h, rfl, rfl, rfl⟩

/-- Closed witness for C9: the non-numeric string " -x" parses as 0. -/
theorem c9_atoi_nonnumeric_parses_zero_witness : atoi " -x" = 0 :=
  (c9_atoi_nonnumeric_parses_zero " -x" (by decide)).1

/-- Claim C10: the Linux-path engine in overclock.c and the engine in zx.c
are extensionally equal: for every privilege outcome, core and multiplier
they compute the same register address and encoded value and issue the same
two port writes in the same order, with the same outcome. -/
theorem c10_engines_extensionally_equal (ioplOk : Bool)
    (core multiplier : Int) :
    overclock.set_cpu_multiplier ioplOk core multiplier =
      zx.set_cpu_multiplier ioplOk core multiplier := rfl
